import Mathlib

/-!
Shallow embedding of the monitoring core of the `CrewAI_pdf_reading` repository:
`ModelMonitor` (model_monitor.py) and `ExperimentManager` (experiment_manager.py).

Conventions of the embedding:
* Python `float` values (latencies, memory percentages, thresholds) are modelled as `ℚ`.
* Timestamps (`datetime.now()`) are modelled as `Nat` seconds and passed explicitly
  as a `now` argument to every operation that reads the clock.
* `collections.deque(maxlen=n)` is modelled as a `List` together with `dequeAppend n`,
  which drops the oldest elements beyond the capacity.
* Python `dict` fields are modelled as structures; the `model_states` dict is an
  association list in insertion order (`findState` / `setState` mirror dict
  lookup and dict update-or-insert).
* Exceptions raised by alert callbacks are modelled by a `fails` predicate on the
  callback; the per-callback `try/except` of `_trigger_alert` is the `match` in
  `dispatchLoop`, which records whether the call raised instead of propagating.
-/

namespace PdfMonitoring

/-- Python `deque(maxlen=cap).append x`: append and drop the oldest entries beyond `cap`. -/
def dequeAppend {α : Type} (cap : Nat) (xs : List α) (x : α) : List α :=
  let ys := xs ++ [x]
  ys.drop (ys.length - cap)

/-- The last `n` elements of a list (all of it when shorter than `n`). -/
def lastN {α : Type} (n : Nat) (xs : List α) : List α :=
  xs.drop (xs.length - n)

/-- Per-model state dict created lazily by `_update_model_state`. -/
structure ModelState where
  total_requests : Nat
  successful_requests : Nat
  failed_requests : Nat
  avg_response_time : ℚ
  last_activity : Option Nat
  status : String
  response_times : List ℚ
deriving DecidableEq

/-- The fresh per-model dict of `_update_model_state` (model_monitor.py lines 219-228). -/
def initialModelState : ModelState :=
  { total_requests := 0
    successful_requests := 0
    failed_requests := 0
    avg_response_time := 0
    last_activity := none
    status := "unknown"
    response_times := [] }

/-- Thresholds dict `self.thresholds` (model_monitor.py lines 45-50). -/
structure Thresholds where
  response_time_threshold : ℚ
  memory_threshold : ℚ
  error_rate_threshold : ℚ
  availability_threshold : ℚ
deriving DecidableEq

/-- Default thresholds from `PERFORMANCE_CONFIG` (config.py) plus the literals in `__init__`. -/
def defaultThresholds : Thresholds :=
  { response_time_threshold := 30
    memory_threshold := 8/10
    error_rate_threshold := 1/10
    availability_threshold := 95/100 }

/-- Stats dict `self.stats` (model_monitor.py lines 58-66).  `uptime_seconds` is the key added
later by `_update_stats`; it is absent (`none`) until that first runs. -/
structure Stats where
  total_requests : Nat
  successful_requests : Nat
  failed_requests : Nat
  avg_response_time : ℚ
  current_memory_usage : ℚ
  uptime_start : Nat
  uptime_seconds : Option Nat
  last_error : Option Nat
deriving DecidableEq

/-- The alert dict built by `_check_alerts`; `timestamp` is added by `_trigger_alert`. -/
structure Alert where
  type : String
  severity : String
  threshold : ℚ
  timestamp : Option Nat
deriving DecidableEq

/-- A registered alert callback.  `fails a` models the callback raising an
exception when invoked on alert `a`. -/
structure Callback where
  id : Nat
  fails : Alert → Bool

/-- One callback invocation performed by `_trigger_alert`: which callback ran and
whether its exception was caught (`raised = true`) or it returned normally. -/
structure CallEvent where
  cb : Callback
  raised : Bool

/-- A `SystemMetrics` snapshot as consumed by the monitor loop (memory usage in percent). -/
structure SystemMetrics where
  cpu_usage : ℚ
  memory_usage : ℚ
  disk_usage : ℚ
deriving DecidableEq

/-- The mutable state of a `ModelMonitor` instance (model_monitor.py `__init__`). -/
structure ModelMonitor where
  is_monitoring : Bool
  monitor_thread : Option Nat
  monitoring_interval : ℚ
  alert_callbacks : List Callback
  thresholds : Thresholds
  response_times : List ℚ
  error_counts : List ℚ
  memory_usage : List ℚ
  stats : Stats
  model_states : List (String × ModelState)

/-- A fresh monitor (`__init__`) constructed at time `t0`. -/
def initMonitor (t0 : Nat) : ModelMonitor :=
  { is_monitoring := false
    monitor_thread := none
    monitoring_interval := 1
    alert_callbacks := []
    thresholds := defaultThresholds
    response_times := []
    error_counts := []
    memory_usage := []
    stats :=
      { total_requests := 0
        successful_requests := 0
        failed_requests := 0
        avg_response_time := 0
        current_memory_usage := 0
        uptime_start := t0
        uptime_seconds := none
        last_error := none }
    model_states := [] }

/-- Dict lookup on `self.model_states`. -/
def findState : List (String × ModelState) → String → Option ModelState
  | [], _ => none
  | p :: rest, name => if p.1 = name then some p.2 else findState rest name

/-- Dict update-or-insert on `self.model_states`: overwrite the first binding of
`name`, or append a new binding at the end (Python dict insertion order). -/
def setState : List (String × ModelState) → String → ModelState → List (String × ModelState)
  | [], name, v => [(name, v)]
  | p :: rest, name, v =>
      if p.1 = name then (name, v) :: rest else p :: setState rest name v

/-- The per-model state written by `_update_model_state`: the existing state (or
the fresh dict on first sight of the model) with counters, activity time, rolling
buffer and average updated. -/
def updatedState (states : List (String × ModelState)) (model_name : String)
    (success : Bool) (response_time : ℚ) (now : Nat) : ModelState :=
  let state0 := (findState states model_name).getD initialModelState
  let state1 := { state0 with
    total_requests := state0.total_requests + 1
    last_activity := some now }
  if success then
    let rts := dequeAppend 50 state1.response_times response_time
    { state1 with
      successful_requests := state1.successful_requests + 1
      response_times := rts
      avg_response_time :=
        if rts.isEmpty then state1.avg_response_time
        else rts.sum / (rts.length : ℚ) }
  else
    { state1 with failed_requests := state1.failed_requests + 1 }

/-- Method `ModelMonitor._update_model_state` (model_monitor.py lines 217-242). -/
def update_model_state (m : ModelMonitor) (model_name : String) (success : Bool)
    (response_time : ℚ) (now : Nat) : ModelMonitor :=
  { m with model_states :=
      setState m.model_states model_name (updatedState m.model_states model_name success response_time now) }

/-- Method `ModelMonitor.record_request` (model_monitor.py lines 201-215). -/
def record_request (m : ModelMonitor) (success : Bool) (response_time : ℚ)
    (model_name : Option String) (now : Nat) : ModelMonitor :=
  let m1 := { m with stats := { m.stats with total_requests := m.stats.total_requests + 1 } }
  let m2 :=
    if success then
      { m1 with
        stats := { m1.stats with successful_requests := m1.stats.successful_requests + 1 }
        response_times := dequeAppend 100 m1.response_times response_time }
    else
      { m1 with
        stats := { m1.stats with
          failed_requests := m1.stats.failed_requests + 1
          last_error := some now }
        error_counts := dequeAppend 100 m1.error_counts 1 }
  match model_name with
  | some name => update_model_state m2 name success response_time now
  | none => m2

/-- A single `record_request` call with its arguments (the clock value included). -/
structure Request where
  success : Bool
  response_time : ℚ
  model_name : Option String
  now : Nat

/-- Run a sequence of `record_request` calls, oldest first. -/
def runRequests (m : ModelMonitor) (rs : List Request) : ModelMonitor :=
  rs.foldl (fun acc r => record_request acc r.success r.response_time r.model_name r.now) m

/-- The body of the `_check_model_health` loop for one model state: five minutes
is 300 seconds; the comparison is strict; a state whose `last_activity` is unset
is left alone (`if last_activity:`). -/
def healthUpdate (now : Nat) (s : ModelState) : ModelState :=
  match s.last_activity with
  | some t =>
      if now - t > 300 then { s with status := "inactive" }
      else { s with status := "active" }
  | none => s

/-- Method `ModelMonitor._check_model_health` (model_monitor.py lines 163-174). -/
def check_model_health (m : ModelMonitor) (now : Nat) : ModelMonitor :=
  { m with model_states := m.model_states.map (fun p => (p.1, healthUpdate now p.2)) }

/-- Method `ModelMonitor._update_stats` (model_monitor.py lines 114-124). -/
def update_stats (m : ModelMonitor) (sm : SystemMetrics) (now : Nat) : ModelMonitor :=
  let stats1 := { m.stats with current_memory_usage := sm.memory_usage }
  let stats2 :=
    if m.response_times.isEmpty then stats1
    else { stats1 with
      avg_response_time := m.response_times.sum / (m.response_times.length : ℚ) }
  { m with stats := { stats2 with uptime_seconds := some (now - stats2.uptime_start) } }

/-- The memory rule of `_check_alerts` (model_monitor.py lines 130-137). -/
def memoryAlerts (m : ModelMonitor) (sm : SystemMetrics) : List Alert :=
  if sm.memory_usage > m.thresholds.memory_threshold * 100 then
    [{ type := "memory_high"
       severity := "warning"
       threshold := m.thresholds.memory_threshold * 100
       timestamp := none }]
  else []

/-- The response-time rule of `_check_alerts` (model_monitor.py lines 139-146). -/
def responseTimeAlerts (m : ModelMonitor) : List Alert :=
  if ¬ m.response_times.isEmpty ∧
      m.stats.avg_response_time > m.thresholds.response_time_threshold then
    [{ type := "response_time_high"
       severity := "warning"
       threshold := m.thresholds.response_time_threshold
       timestamp := none }]
  else []

/-- The error-rate rule of `_check_alerts` (model_monitor.py lines 148-157). -/
def errorRateAlerts (m : ModelMonitor) : List Alert :=
  if m.stats.total_requests > 0 ∧
      (m.stats.failed_requests : ℚ) / (m.stats.total_requests : ℚ) >
        m.thresholds.error_rate_threshold then
    [{ type := "error_rate_high"
       severity := "critical"
       threshold := m.thresholds.error_rate_threshold
       timestamp := none }]
  else []

/-- Method `ModelMonitor._check_alerts` (model_monitor.py lines 126-161) without the final
dispatch: the list of alerts produced by one evaluation. -/
def check_alerts (m : ModelMonitor) (sm : SystemMetrics) : List Alert :=
  memoryAlerts m sm ++ responseTimeAlerts m ++ errorRateAlerts m

/-- The callback loop of `_trigger_alert` (model_monitor.py lines 180-184): each
call is wrapped in its own `try/except`; an exception is recorded (logged) and the
loop continues with the next callback.  The function is total: no exception
escapes to the caller. -/
def dispatchLoop : List Callback → Alert → List CallEvent
  | [], _ => []
  | cb :: rest, a =>
      (if cb.fails a then { cb := cb, raised := true } else { cb := cb, raised := false })
        :: dispatchLoop rest a

/-- Method `ModelMonitor._trigger_alert` (model_monitor.py lines 176-195): stamps the
alert with the current time, runs every registered callback through
`dispatchLoop`, and leaves the monitor state (in particular `alert_callbacks`)
untouched. -/
def trigger_alert (m : ModelMonitor) (alert : Alert) (now : Nat) :
    ModelMonitor × Alert × List CallEvent :=
  let stamped := { alert with timestamp := some now }
  (m, stamped, dispatchLoop m.alert_callbacks stamped)

/-- Method `ModelMonitor.register_alert_callback` (model_monitor.py lines 197-199). -/
def register_alert_callback (m : ModelMonitor) (cb : Callback) : ModelMonitor :=
  { m with alert_callbacks := m.alert_callbacks ++ [cb] }

/-- One iteration of `_monitor_loop` (model_monitor.py lines 94-107): sample is
given as `sm`; append memory usage, update stats, evaluate and dispatch alerts,
then refresh model health. -/
def monitor_tick (m : ModelMonitor) (sm : SystemMetrics) (now : Nat) :
    ModelMonitor × List (Alert × List CallEvent) :=
  let m1 := { m with memory_usage := dequeAppend 100 m.memory_usage sm.memory_usage }
  let m2 := update_stats m1 sm now
  let events := (check_alerts m2 sm).map (fun a => ((trigger_alert m2 a now).2.1,
    (trigger_alert m2 a now).2.2))
  (check_model_health m2 now, events)

/-- The dict returned by `ModelMonitor.get_system_status` (lines 264-284),
restricted to the fields the spec talks about. -/
structure SystemStatus where
  monitoring_active : Bool
  uptime_seconds : Nat
  total_requests : Nat
  availability : ℚ
  avg_response_time : ℚ
  current_memory_usage : ℚ
  active_models : Nat
  last_error : Option Nat
  health_status : String
deriving DecidableEq

/-- Method `ModelMonitor.get_system_status` (model_monitor.py lines 264-284). -/
def get_system_status (m : ModelMonitor) (now : Nat) : SystemStatus :=
  let total := m.stats.total_requests
  let availability :=
    if total > 0 then (m.stats.successful_requests : ℚ) / (total : ℚ) else 1
  { monitoring_active := m.is_monitoring
    uptime_seconds := now - m.stats.uptime_start
    total_requests := total
    availability := availability
    avg_response_time := m.stats.avg_response_time
    current_memory_usage := m.stats.current_memory_usage
    active_models := (m.model_states.filter (fun p => p.2.status = "active")).length
    last_error := m.stats.last_error
    health_status :=
      if availability > m.thresholds.availability_threshold then "healthy" else "degraded" }

/-- Method `ModelMonitor.reset_stats` (model_monitor.py lines 305-322). -/
def reset_stats (m : ModelMonitor) (now : Nat) : ModelMonitor :=
  { m with
    stats :=
      { total_requests := 0
        successful_requests := 0
        failed_requests := 0
        avg_response_time := 0
        current_memory_usage := 0
        uptime_start := now
        uptime_seconds := none
        last_error := none }
    response_times := []
    error_counts := []
    memory_usage := []
    model_states := [] }

/-! ### ExperimentManager (experiment_manager.py)

The manager is a facade over the MLflow fluent API, a third-party library.
The fluent API keeps a process-wide stack of active runs; we thread that
external state explicitly as `MlflowState`. -/

/-- The MLflow fluent tracking state visible to this code: the stack of active
runs and a counter for fresh run ids. -/
structure MlflowState where
  active_runs : List Nat
  next_run_id : Nat
deriving DecidableEq

/-- Modelled from MLflow's documented fluent API: `mlflow.start_run()` without
`nested=True` raises when a run is already active; otherwise it pushes a fresh
run onto the active-run stack and returns it. -/
def mlflow_start_run (ml : MlflowState) : Except String (MlflowState × Nat) :=
  if ml.active_runs.isEmpty then
    Except.ok ({ active_runs := ml.next_run_id :: ml.active_runs,
                 next_run_id := ml.next_run_id + 1 },
               ml.next_run_id)
  else
    Except.error "Run is already active"

/-- Modelled from MLflow's documented fluent API: `mlflow.end_run()` pops the
active-run stack and is a no-op when no run is active. -/
def mlflow_end_run (ml : MlflowState) : MlflowState :=
  { ml with active_runs := ml.active_runs.drop 1 }

/-- The state of an `ExperimentManager` instance (experiment_manager.py
`__init__`): MLflow availability, the experiment id resolved by `_setup_mlflow`
(`none` when setup failed), and the current run. -/
structure ExperimentManager where
  mlflow_available : Bool
  experiment_id : Option Nat
  current_run : Option Nat
deriving DecidableEq

/-- Method `ExperimentManager.start_run` (experiment_manager.py lines 72-98): returns
`none` when MLflow is unavailable or no experiment is configured; otherwise
calls `mlflow.start_run` and, on success, stores the new run and returns its id.
Any exception from `mlflow.start_run` is caught and logged and the method
returns `none`, leaving `current_run` unchanged.  Run-name and tag plumbing is
omitted: it does not affect the run lifecycle. -/
def start_run (em : ExperimentManager) (ml : MlflowState) :
    ExperimentManager × MlflowState × Option Nat :=
  if em.mlflow_available = false ∨ em.experiment_id = none then
    (em, ml, none)
  else
    match mlflow_start_run ml with
    | Except.ok (ml2, rid) => ({ em with current_run := some rid }, ml2, some rid)
    | Except.error _ => (em, ml, none)

/-- Method `ExperimentManager.end_run` (experiment_manager.py lines 100-108): when
MLflow is available and a run is current, calls `mlflow.end_run` and clears
`current_run`; otherwise does nothing.  `mlflow.end_run` on an active run does
not raise, so the `try/except` body always completes. -/
def end_run (em : ExperimentManager) (ml : MlflowState) :
    ExperimentManager × MlflowState :=
  if em.mlflow_available = true ∧ em.current_run ≠ none then
    ({ em with current_run := none }, mlflow_end_run ml)
  else
    (em, ml)

/-! ### Invariants and concrete inputs used by the claims -/

/-- The counter invariant of the spec: `total_requests = successful + failed`
both for the monitor-wide stats and for every per-model state. -/
def statsInvariant (m : ModelMonitor) : Prop :=
  m.stats.total_requests = m.stats.successful_requests + m.stats.failed_requests ∧
  ∀ p ∈ m.model_states,
    p.2.total_requests = p.2.successful_requests + p.2.failed_requests

/-- The latencies of the successful requests a sequence addresses to `name`,
oldest first. -/
def modelSuccLatencies (name : String) (rs : List Request) : List ℚ :=
  (rs.filter (fun r => r.success && (r.model_name == some name))).map
    (fun r => r.response_time)

/-- Relation between a model's stored state and the successful latencies `zs`
recorded for it so far: the rolling buffer holds the last 50 of them and the
stored average is the mean of the buffer whenever the buffer is non-empty. -/
def modelBufferInv (states : List (String × ModelState)) (name : String)
    (zs : List ℚ) : Prop :=
  match findState states name with
  | none => zs = []
  | some s =>
      s.response_times = lastN 50 zs ∧
      (s.response_times ≠ [] →
        s.avg_response_time = s.response_times.sum / (s.response_times.length : ℚ))

/-- Every registered model carries a `last_activity` timestamp (they are created
only by `_update_model_state`, which stamps the activity time unconditionally). -/
def activityInv (states : List (String × ModelState)) : Prop :=
  ∀ p ∈ states, p.2.last_activity ≠ none

/-- The latencies of the successful requests of a sequence, oldest first. -/
def succLatencies (rs : List Request) : List ℚ :=
  (rs.filter (fun r => r.success)).map (fun r => r.response_time)

/-- Concrete requests for the C3 witness: two successes and one failure for `m1`. -/
def reqs3 : List Request :=
  [⟨true, 2, some "m1", 0⟩, ⟨true, 4, some "m1", 1⟩, ⟨false, 9, some "m1", 2⟩]

/-- The state `reqs3` leaves behind for model `m1`. -/
def s3 : ModelState :=
  { total_requests := 3
    successful_requests := 2
    failed_requests := 1
    avg_response_time := 3
    last_activity := some 2
    status := "unknown"
    response_times := [2, 4] }

/-- Concrete request list for the C5 witness. -/
def reqs5 : List Request := [⟨true, 2, some "m1", 0⟩]

/-- The state of `m1` right after `reqs5`, before any health check. -/
def s5pre : ModelState :=
  { total_requests := 1
    successful_requests := 1
    failed_requests := 0
    avg_response_time := 2
    last_activity := some 0
    status := "unknown"
    response_times := [2] }

/-- The state of `m1` after the health check at time 400 (inactive: 400 > 300). -/
def s5 : ModelState := { s5pre with status := "inactive" }

/-- The over-threshold sample used by the C6 witness (memory at 90%). -/
def smW : SystemMetrics := { cpu_usage := 0, memory_usage := 90, disk_usage := 0 }

/-- A manager with MLflow available and an experiment configured, before any run. -/
def em1 : ExperimentManager :=
  { mlflow_available := true, experiment_id := some 0, current_run := none }

/-- The MLflow state matching `em1`: no active run yet. -/
def ml1 : MlflowState := { active_runs := [], next_run_id := 1 }

/-! ### Helper lemmas about the buffer and dict primitives -/

lemma lastN_length_le {α : Type} (n : Nat) (xs : List α) : (lastN n xs).length ≤ n := by
  simp only [lastN, List.length_drop]
  omega

lemma lastN_of_length_le {α : Type} (n : Nat) (xs : List α) (h : xs.length ≤ n) :
    lastN n xs = xs := by
  simp only [lastN]
  have : xs.length - n = 0 := by omega
  simp [this]

lemma dequeAppend_ne_nil {α : Type} (cap : Nat) (h : 1 ≤ cap) (xs : List α) (x : α) :
    dequeAppend cap xs x ≠ [] := by
  intro hc
  have hl := congrArg List.length hc
  simp only [dequeAppend, List.length_drop, List.length_append, List.length_cons,
    List.length_nil] at hl
  omega

lemma dequeAppend_lastN {α : Type} (cap : Nat) (h : 1 ≤ cap) (zs : List α) (x : α) :
    dequeAppend cap (lastN cap zs) x = lastN cap (zs ++ [x]) := by
  simp only [dequeAppend, lastN, List.length_append, List.length_drop,
    List.drop_append_eq_append_drop, List.length_cons, List.length_nil]
  congr 1
  · rw [List.drop_drop]
    congr 1
    omega
  · congr 1
    omega

lemma findState_setState_self (xs : List (String × ModelState)) (name : String)
    (v : ModelState) : findState (setState xs name v) name = some v := by
  induction xs with
  | nil => simp [setState, findState]
  | cons p rest ih =>
      by_cases hp : p.1 = name
      · simp [setState, findState, hp]
      · simp [setState, findState, hp, ih]

lemma findState_setState_ne (xs : List (String × ModelState)) (name other : String)
    (v : ModelState) (h : other ≠ name) :
    findState (setState xs name v) other = findState xs other := by
  induction xs with
  | nil => simp [setState, findState, Ne.symm h]
  | cons p rest ih =>
      by_cases hp : p.1 = name
      · simp only [setState, if_pos hp, findState]
        rw [if_neg (fun hh => h hh.symm), if_neg (fun hh => h (hh.symm.trans hp))]
      · simp only [setState, if_neg hp, findState, ih]

lemma mem_setState (xs : List (String × ModelState)) (name : String) (v : ModelState)
    (p : String × ModelState) (hp : p ∈ setState xs name v) :
    p = (name, v) ∨ p ∈ xs := by
  induction xs with
  | nil => simpa [setState] using hp
  | cons q rest ih =>
      by_cases hq : q.1 = name
      · simp only [setState, if_pos hq, List.mem_cons] at hp
        rcases hp with hp | hp
        · exact Or.inl hp
        · exact Or.inr (List.mem_cons_of_mem _ hp)
      · simp only [setState, if_neg hq, List.mem_cons] at hp
        rcases hp with hp | hp
        · exact Or.inr (by simp [hp])
        · rcases ih hp with hh | hh
          · exact Or.inl hh
          · exact Or.inr (List.mem_cons_of_mem _ hh)

lemma findState_mem (xs : List (String × ModelState)) (name : String) (s : ModelState)
    (h : findState xs name = some s) : (name, s) ∈ xs := by
  induction xs with
  | nil => simp [findState] at h
  | cons p rest ih =>
      by_cases hp : p.1 = name
      · simp only [findState, if_pos hp, Option.some.injEq] at h
        have hps : p = (name, s) := by
          cases p
          simp_all
        rw [← hps]
        exact List.mem_cons_self _ _
      · simp only [findState, if_neg hp] at h
        exact List.mem_cons_of_mem _ (ih h)

lemma findState_map_health (xs : List (String × ModelState)) (name : String) (now : Nat) :
    findState (xs.map (fun p => (p.1, healthUpdate now p.2))) name =
      (findState xs name).map (healthUpdate now) := by
  induction xs with
  | nil => simp [findState]
  | cons p rest ih =>
      by_cases hp : p.1 = name
      · simp [findState, hp]
      · simp [findState, hp, ih]

/-! ### Claim C2: total = successful + failed, monitor-wide and per model -/


lemma runRequests_nil (m : ModelMonitor) : runRequests m [] = m := rfl

lemma runRequests_cons (m : ModelMonitor) (r : Request) (rs : List Request) :
    runRequests m (r :: rs) =
      runRequests (record_request m r.success r.response_time r.model_name r.now) rs := rfl

lemma statsInvariant_record (m : ModelMonitor) (success : Bool) (rt : ℚ)
    (mn : Option String) (now : Nat) (h : statsInvariant m) :
    statsInvariant (record_request m success rt mn now) := by
  obtain ⟨h1, h2⟩ := h
  have hstats :
      ∀ (m2 : ModelMonitor), m2.stats.total_requests = m2.stats.successful_requests + m2.stats.failed_requests →
        (∀ p ∈ m2.model_states, p.2.total_requests = p.2.successful_requests + p.2.failed_requests) →
        statsInvariant (match mn with
          | some name => update_model_state m2 name success rt now
          | none => m2) := by
    intro m2 g1 g2
    cases mn with
    | none => exact ⟨g1, g2⟩
    | some name =>
        refine ⟨g1, ?_⟩
        intro p hp
        simp only [update_model_state] at hp
        rcases mem_setState _ _ _ _ hp with hn | hn
        · subst hn
          have hstate0 :
              ((findState m2.model_states name).getD initialModelState).total_requests =
                ((findState m2.model_states name).getD initialModelState).successful_requests +
                ((findState m2.model_states name).getD initialModelState).failed_requests := by
            cases hf : findState m2.model_states name with
            | none => simp [initialModelState]
            | some s0 => simpa using g2 (name, s0) (findState_mem _ _ _ hf)
          cases success <;> simp_all [updatedState] <;> omega
        · exact g2 p hn
  cases success <;>
    exact hstats _ (by simp [record_request]; omega)
      (by intro p hp; exact h2 p (by simpa [record_request] using hp))

/-- Claim C2: after any sequence of `record_request` calls starting from a fresh
monitor, `total_requests = successful_requests + failed_requests` holds for the
monitor-wide stats and for every per-model state. -/
theorem c2_counter_invariant (rs : List Request) (t0 : Nat) :
    statsInvariant (runRequests (initMonitor t0) rs) := by
  have hstep : ∀ (m : ModelMonitor) (l : List Request), statsInvariant m →
      statsInvariant (runRequests m l) := by
    intro m l
    induction l generalizing m with
    | nil => exact fun h => h
    | cons r rest ih =>
        intro h
        rw [runRequests_cons]
        exact ih _ (statsInvariant_record _ _ _ _ _ h)
  exact hstep _ _ ⟨rfl, by intro p hp; simp [initMonitor] at hp⟩

/-! ### Claim C3: per-model rolling latency buffer and average -/



lemma record_request_model_states (m : ModelMonitor) (success : Bool) (rt : ℚ)
    (mn : Option String) (now : Nat) :
    (record_request m success rt mn now).model_states =
      match mn with
      | none => m.model_states
      | some name =>
          setState m.model_states name (updatedState m.model_states name success rt now) := by
  cases mn <;> cases success <;> rfl

lemma isEmpty_false_of_ne_nil {α : Type} {l : List α} (h : l ≠ []) :
    l.isEmpty = false := by
  cases l with
  | nil => exact absurd rfl h
  | cons a as => rfl

lemma updatedState_true_response_times (states : List (String × ModelState))
    (name : String) (rt : ℚ) (now : Nat) :
    (updatedState states name true rt now).response_times =
      dequeAppend 50 ((findState states name).getD initialModelState).response_times rt := by
  simp [updatedState]

lemma updatedState_true_avg (states : List (String × ModelState)) (name : String)
    (rt : ℚ) (now : Nat) :
    (updatedState states name true rt now).avg_response_time =
      (updatedState states name true rt now).response_times.sum /
        ((updatedState states name true rt now).response_times.length : ℚ) := by
  have hne :
      (dequeAppend 50 ((findState states name).getD initialModelState).response_times rt).isEmpty = false :=
    isEmpty_false_of_ne_nil (dequeAppend_ne_nil 50 (by omega) _ _)
  simp [updatedState, hne]

lemma updatedState_false_response_times (states : List (String × ModelState))
    (name : String) (rt : ℚ) (now : Nat) :
    (updatedState states name false rt now).response_times =
      ((findState states name).getD initialModelState).response_times := by
  simp [updatedState]

lemma updatedState_false_avg (states : List (String × ModelState)) (name : String)
    (rt : ℚ) (now : Nat) :
    (updatedState states name false rt now).avg_response_time =
      ((findState states name).getD initialModelState).avg_response_time := by
  simp [updatedState]

lemma modelBufferInv_record (m : ModelMonitor) (name : String) (zs : List ℚ)
    (success : Bool) (rt : ℚ) (mn : Option String) (now : Nat)
    (h : modelBufferInv m.model_states name zs) :
    modelBufferInv (record_request m success rt mn now).model_states name
      (zs ++ (if success = true ∧ mn = some name then [rt] else [])) := by
  rw [record_request_model_states]
  cases mn with
  | none => simpa using h
  | some n =>
      by_cases hn : name = n
      · subst hn
        cases success with
        | true =>
            rw [if_pos ⟨rfl, rfl⟩]
            simp only [modelBufferInv, findState_setState_self]
            refine ⟨?_, fun _ => updatedState_true_avg _ _ _ _⟩
            rw [updatedState_true_response_times]
            cases hf : findState m.model_states name with
            | none =>
                rw [modelBufferInv, hf] at h
                subst h
                simp [dequeAppend, lastN, initialModelState]
            | some s0 =>
                rw [modelBufferInv, hf] at h
                simp only [Option.getD_some]
                rw [h.1]
                exact dequeAppend_lastN 50 (by omega) zs rt
        | false =>
            rw [if_neg (fun hc => Bool.false_ne_true hc.1), List.append_nil]
            simp only [modelBufferInv, findState_setState_self]
            cases hf : findState m.model_states name with
            | none =>
                rw [modelBufferInv, hf] at h
                subst h
                refine ⟨?_, ?_⟩
                · rw [updatedState_false_response_times, hf]
                  simp [initialModelState, lastN]
                · intro hnb
                  rw [updatedState_false_response_times, hf] at hnb
                  simp [initialModelState] at hnb
            | some s0 =>
                rw [modelBufferInv, hf] at h
                refine ⟨?_, ?_⟩
                · rw [updatedState_false_response_times, hf]
                  exact h.1
                · intro hnb
                  rw [updatedState_false_response_times, hf] at hnb
                  rw [updatedState_false_response_times, hf,
                    updatedState_false_avg, hf]
                  exact h.2 hnb
      · have hfs := findState_setState_ne m.model_states n name
          (updatedState m.model_states n success rt now) hn
        have hz : (if success = true ∧ some n = some name then [rt] else []) = ([] : List ℚ) := by
          rw [if_neg]
          rintro ⟨-, hc⟩
          injection hc with hc2
          exact hn hc2.symm
        rw [hz, List.append_nil, modelBufferInv, hfs]
        rw [modelBufferInv] at h
        exact h

lemma modelSuccLatencies_cons (name : String) (r : Request) (rest : List Request) :
    modelSuccLatencies name (r :: rest) =
      (if r.success = true ∧ r.model_name = some name then [r.response_time] else []) ++
        modelSuccLatencies name rest := by
  by_cases hc : r.success = true ∧ r.model_name = some name
  · have hb : (r.success && (r.model_name == some name)) = true := by
      rw [Bool.and_eq_true, beq_iff_eq]
      exact ⟨hc.1, hc.2⟩
    rw [if_pos hc]
    simp [modelSuccLatencies, List.filter_cons, hb]
  · have hb : (r.success && (r.model_name == some name)) = false := by
      cases hx : (r.success && (r.model_name == some name)) with
      | false => rfl
      | true =>
          rw [Bool.and_eq_true, beq_iff_eq] at hx
          exact absurd hx hc
    rw [if_neg hc]
    simp [modelSuccLatencies, List.filter_cons, hb]

lemma modelBufferInv_runRequests (name : String) (rs : List Request) :
    ∀ (m : ModelMonitor) (zs : List ℚ),
      modelBufferInv m.model_states name zs →
      modelBufferInv (runRequests m rs).model_states name
        (zs ++ modelSuccLatencies name rs) := by
  induction rs with
  | nil =>
      intro m zs h
      simpa [modelSuccLatencies] using h
  | cons r rest ih =>
      intro m zs h
      rw [runRequests_cons, modelSuccLatencies_cons, ← List.append_assoc]
      exact ih _ _ (modelBufferInv_record m name zs r.success r.response_time r.model_name r.now h)

/-- Claim C3: for every model and request sequence from a fresh monitor, the
model's rolling buffer is exactly the last (at most) 50 successful latencies
recorded for it — so latencies are appended only on success, the cap of 50 keeps
the most recent entries — and after every successful request the stored
`avg_response_time` is the arithmetic mean of the buffer's contents. -/
theorem c3_model_rolling_buffer (rs : List Request) (name : String) (t0 : Nat)
    (s : ModelState)
    (hs : findState (runRequests (initMonitor t0) rs).model_states name = some s) :
    s.response_times = lastN 50 (modelSuccLatencies name rs) ∧
    s.response_times.length ≤ 50 ∧
    (s.response_times ≠ [] →
      s.avg_response_time = s.response_times.sum / (s.response_times.length : ℚ)) := by
  have h0 : modelBufferInv (initMonitor t0).model_states name [] := by
    simp [modelBufferInv, initMonitor, findState]
  have h1 := modelBufferInv_runRequests name rs (initMonitor t0) [] h0
  rw [List.nil_append, modelBufferInv, hs] at h1
  refine ⟨h1.1, ?_, h1.2⟩
  rw [h1.1]
  exact lastN_length_le _ _



/-- Witness for C3 at a concrete sequence. -/
theorem c3_model_rolling_buffer_witness :
    findState (runRequests (initMonitor 0) reqs3).model_states "m1" = some s3 ∧
    (s3.response_times = lastN 50 (modelSuccLatencies "m1" reqs3) ∧
      s3.response_times.length ≤ 50 ∧
      (s3.response_times ≠ [] →
        s3.avg_response_time = s3.response_times.sum / (s3.response_times.length : ℚ))) :=
  ⟨by
    simp [reqs3, runRequests, record_request, update_model_state, updatedState, initMonitor,
      findState, setState, initialModelState, dequeAppend, s3, defaultThresholds]
    norm_num,
   c3_model_rolling_buffer reqs3 "m1" 0 s3 (by
    simp [reqs3, runRequests, record_request, update_model_state, updatedState, initMonitor,
      findState, setState, initialModelState, dequeAppend, s3, defaultThresholds]
    norm_num)⟩

/-! ### Claim C4: availability -/

/-- Claim C4: `get_system_status` reports `availability = successful/total` when
`total_requests > 0` and `availability = 1` when no request was recorded (in
particular on a fresh monitor). -/
theorem c4_availability (m : ModelMonitor) (now t0 : Nat) :
    (m.stats.total_requests > 0 →
      (get_system_status m now).availability =
        (m.stats.successful_requests : ℚ) / (m.stats.total_requests : ℚ)) ∧
    (m.stats.total_requests = 0 → (get_system_status m now).availability = 1) ∧
    (get_system_status (initMonitor t0) now).availability = 1 := by
  refine ⟨?_, ?_, ?_⟩
  · intro h
    simp [get_system_status, h]
  · intro h
    simp [get_system_status, h]
  · simp [get_system_status, initMonitor]

/-- Witness for C4: a fresh monitor has zero requests and availability 1. -/
theorem c4_availability_witness :
    (initMonitor 0).stats.total_requests = 0 ∧
      (get_system_status (initMonitor 0) 5).availability = 1 :=
  ⟨rfl, (c4_availability (initMonitor 0) 5 0).2.1 rfl⟩

/-! ### Claim C5: health status is derived from activity recency -/


lemma activityInv_record (m : ModelMonitor) (success : Bool) (rt : ℚ)
    (mn : Option String) (now : Nat) (h : activityInv m.model_states) :
    activityInv (record_request m success rt mn now).model_states := by
  rw [record_request_model_states]
  cases mn with
  | none => exact h
  | some n =>
      intro p hp
      rcases mem_setState _ _ _ _ hp with hn | hn
      · subst hn
        cases success <;> simp [updatedState]
      · exact h p hn

lemma activityInv_runRequests (rs : List Request) (t0 : Nat) :
    activityInv (runRequests (initMonitor t0) rs).model_states := by
  have hstep : ∀ (m : ModelMonitor) (l : List Request), activityInv m.model_states →
      activityInv (runRequests m l).model_states := by
    intro m l
    induction l generalizing m with
    | nil => exact fun h => h
    | cons r rest ih =>
        intro h
        rw [runRequests_cons]
        exact ih _ (activityInv_record _ _ _ _ _ h)
  exact hstep _ _ (by intro p hp; simp [initMonitor] at hp)

/-- Claim C5: after the health check every registered model's status is exactly
`inactive` when `now - last_activity` exceeds 300 seconds and `active`
otherwise; and `record_request` (the only other mutation of model states) never
changes the status of an existing model, so status is derived purely from
activity recency. -/
theorem c5_health_derived (rs : List Request) (now t0 : Nat) (name : String)
    (s : ModelState) (m : ModelMonitor) (s2 : ModelState) (success : Bool)
    (rt : ℚ) (mn : Option String) (rnow : Nat)
    (hs : findState (check_model_health (runRequests (initMonitor t0) rs) now).model_states name = some s)
    (h2 : findState m.model_states name = some s2) :
    (s.last_activity ≠ none ∧
      s.status = (if now - s.last_activity.getD 0 > 300 then "inactive" else "active")) ∧
    (findState (record_request m success rt mn rnow).model_states name).map
      ModelState.status = some s2.status := by
  constructor
  · rw [check_model_health] at hs
    simp only at hs
    rw [findState_map_health] at hs
    cases hf : findState (runRequests (initMonitor t0) rs).model_states name with
    | none =>
        rw [hf] at hs
        simp at hs
    | some s0 =>
        rw [hf] at hs
        have hact := activityInv_runRequests rs t0 (name, s0) (findState_mem _ _ _ hf)
        simp only at hact
        cases hla : s0.last_activity with
        | none => exact absurd hla hact
        | some t =>
            have hs' : s = healthUpdate now s0 := by
              simp only [Option.map_some'] at hs
              injection hs with hs2
              exact hs2.symm
            subst hs'
            simp only [healthUpdate, hla]
            by_cases ht : now - t > 300
            · simp [ht]
            · simp [ht]
  · rw [record_request_model_states]
    cases mn with
    | none =>
        rw [h2]
        rfl
    | some n =>
        by_cases hn : name = n
        · subst hn
          rw [findState_setState_self]
          cases success <;> simp [updatedState, h2]
        · rw [findState_setState_ne _ _ _ _ hn, h2]
          rfl




/-- Witness for C5 at a concrete run: one success at time 0, health check at 400. -/
theorem c5_health_derived_witness :
    (s5.last_activity ≠ none ∧
      s5.status = (if 400 - s5.last_activity.getD 0 > 300 then "inactive" else "active")) ∧
    (findState (record_request (runRequests (initMonitor 0) reqs5) true 1 (some "m1") 7).model_states "m1").map
      ModelState.status = some s5pre.status :=
  c5_health_derived reqs5 400 0 "m1" s5 (runRequests (initMonitor 0) reqs5) s5pre true 1 (some "m1") 7
    (by
      simp [reqs5, runRequests, record_request, update_model_state, updatedState, initMonitor,
        findState, setState, initialModelState, dequeAppend, s5, s5pre, defaultThresholds,
        check_model_health, healthUpdate])
    (by
      simp [reqs5, runRequests, record_request, update_model_state, updatedState, initMonitor,
        findState, setState, initialModelState, dequeAppend, s5pre, defaultThresholds])

/-! ### Claim C6: alert evaluation is memoryless across ticks -/

lemma update_stats_thresholds (m : ModelMonitor) (sm : SystemMetrics) (now : Nat) :
    (update_stats m sm now).thresholds = m.thresholds := rfl

lemma monitor_tick_fst_thresholds (m : ModelMonitor) (sm : SystemMetrics) (now : Nat) :
    ((monitor_tick m sm now).1).thresholds = m.thresholds := rfl

lemma check_alerts_filter_memory (m : ModelMonitor) (sm : SystemMetrics)
    (h : sm.memory_usage > m.thresholds.memory_threshold * 100) :
    (check_alerts m sm).filter (fun a => a.type == "memory_high") =
      [{ type := "memory_high", severity := "warning",
         threshold := m.thresholds.memory_threshold * 100, timestamp := none }] := by
  rw [check_alerts, List.filter_append, List.filter_append]
  rw [memoryAlerts, if_pos h]
  have h2 : (responseTimeAlerts m).filter (fun a => a.type == "memory_high") = [] := by
    rw [responseTimeAlerts]
    split <;> simp
  have h3 : (errorRateAlerts m).filter (fun a => a.type == "memory_high") = [] := by
    rw [errorRateAlerts]
    split <;> simp
  rw [h2, h3]
  simp

lemma monitor_tick_alerts (m : ModelMonitor) (sm : SystemMetrics) (now : Nat) :
    (monitor_tick m sm now).2.map Prod.fst =
      (check_alerts (update_stats { m with memory_usage := dequeAppend 100 m.memory_usage sm.memory_usage } sm now) sm).map
        (fun a => { a with timestamp := some now }) := by
  simp only [monitor_tick, List.map_map]
  rfl

lemma filter_type_map_stamp (l : List Alert) (T : String) (now : Nat) :
    (l.map (fun a => { a with timestamp := some now })).filter (fun a => a.type == T) =
      (l.filter (fun a => a.type == T)).map (fun a => { a with timestamp := some now }) := by
  induction l with
  | nil => rfl
  | cons a rest ih =>
      by_cases hT : (a.type == T) = true
      · simp [List.filter_cons, hT, ih]
      · simp [List.filter_cons, hT, ih]

/-- Claim C6: when the sampled memory usage exceeds the threshold, one loop
iteration raises exactly one `memory_high` alert with severity `warning`, and a
second iteration on the same data raises it again (no suppression); the
error-rate rule only ever raises `critical` alerts. -/
theorem c6_alerts_memoryless (m : ModelMonitor) (sm : SystemMetrics) (now now2 : Nat)
    (h : sm.memory_usage > m.thresholds.memory_threshold * 100) :
    ((monitor_tick m sm now).2.map Prod.fst).filter (fun a => a.type == "memory_high") =
      [{ type := "memory_high", severity := "warning",
         threshold := m.thresholds.memory_threshold * 100, timestamp := some now }] ∧
    ((monitor_tick (monitor_tick m sm now).1 sm now2).2.map Prod.fst).filter
        (fun a => a.type == "memory_high") =
      [{ type := "memory_high", severity := "warning",
         threshold := m.thresholds.memory_threshold * 100, timestamp := some now2 }] ∧
    (errorRateAlerts m).all (fun a => a.severity == "critical") = true := by
  refine ⟨?_, ?_, ?_⟩
  · rw [monitor_tick_alerts, filter_type_map_stamp,
      check_alerts_filter_memory
        (update_stats { m with memory_usage := dequeAppend 100 m.memory_usage sm.memory_usage } sm now)
        sm h]
    rfl
  · rw [monitor_tick_alerts, filter_type_map_stamp,
      check_alerts_filter_memory
        (update_stats
          { (monitor_tick m sm now).1 with
              memory_usage := dequeAppend 100 (monitor_tick m sm now).1.memory_usage sm.memory_usage }
          sm now2)
        sm h]
    rfl
  · rw [errorRateAlerts]
    split <;> rfl


/-- Witness for C6: over-threshold memory on a fresh monitor raises the alert on
two consecutive ticks. -/
theorem c6_alerts_memoryless_witness :
    (smW.memory_usage > (initMonitor 0).thresholds.memory_threshold * 100) ∧
    ((monitor_tick (initMonitor 0) smW 3).2.map Prod.fst).filter
        (fun a => a.type == "memory_high") =
      [{ type := "memory_high", severity := "warning",
         threshold := (initMonitor 0).thresholds.memory_threshold * 100, timestamp := some 3 }] ∧
    ((monitor_tick (monitor_tick (initMonitor 0) smW 3).1 smW 4).2.map Prod.fst).filter
        (fun a => a.type == "memory_high") =
      [{ type := "memory_high", severity := "warning",
         threshold := (initMonitor 0).thresholds.memory_threshold * 100, timestamp := some 4 }] :=
  have hh : smW.memory_usage > (initMonitor 0).thresholds.memory_threshold * 100 := by
    norm_num [smW, initMonitor, defaultThresholds]
  ⟨hh, (c6_alerts_memoryless (initMonitor 0) smW 3 4 hh).1,
    (c6_alerts_memoryless (initMonitor 0) smW 3 4 hh).2.1⟩

/-! ### Claim C7: alert dispatch isolates callback failures -/

lemma dispatchLoop_eq_map (cbs : List Callback) (a : Alert) :
    dispatchLoop cbs a = cbs.map (fun cb => { cb := cb, raised := cb.fails a }) := by
  induction cbs with
  | nil => rfl
  | cons cb rest ih =>
      rw [dispatchLoop]
      by_cases hf : cb.fails a = true
      · simp [hf, ih]
      · simp [hf, ih]

/-- Claim C7: `_trigger_alert` leaves the registered callback list untouched and
invokes every registered callback, in registration order, on the (timestamped)
alert; a callback that raises is recorded as caught-and-logged
(`raised = true`) and the remaining callbacks are still invoked — the dispatch
itself is total, so no exception propagates to the caller. -/
theorem c7_dispatch_isolation (m : ModelMonitor) (a : Alert) (now : Nat) :
    (trigger_alert m a now).1.alert_callbacks = m.alert_callbacks ∧
    ((trigger_alert m a now).2.2).map CallEvent.cb = m.alert_callbacks ∧
    (trigger_alert m a now).2.2 =
      m.alert_callbacks.map
        (fun cb => { cb := cb, raised := cb.fails ((trigger_alert m a now).2.1) }) := by
  refine ⟨rfl, ?_, dispatchLoop_eq_map _ _⟩
  have he : (trigger_alert m a now).2.2 =
      dispatchLoop m.alert_callbacks { a with timestamp := some now } := rfl
  rw [he, dispatchLoop_eq_map, List.map_map]
  exact List.map_id m.alert_callbacks

/-! ### Claim C8: EndRun is idempotent -/

/-- Claim C8: `end_run` with no open run is a no-op that raises nothing, and
running `end_run` twice leaves exactly the state of running it once. -/
theorem c8_end_run_idempotent (em : ExperimentManager) (ml : MlflowState) :
    (em.current_run = none → end_run em ml = (em, ml)) ∧
    end_run (end_run em ml).1 (end_run em ml).2 = end_run em ml := by
  constructor
  · intro h
    rw [end_run, if_neg]
    rintro ⟨-, hc⟩
    exact hc h
  · by_cases h1 : em.mlflow_available = true ∧ em.current_run ≠ none
    · have e1 : end_run em ml = ({ em with current_run := none }, mlflow_end_run ml) := by
        rw [end_run, if_pos h1]
      rw [e1, end_run, if_neg]
      rintro ⟨-, hc⟩
      exact hc rfl
    · have e1 : end_run em ml = (em, ml) := by
        rw [end_run, if_neg h1]
      rw [e1]
      exact e1

/-- Witness for C8: with no open run, `end_run` is the identity. -/
theorem c8_end_run_idempotent_witness :
    (⟨true, some 0, none⟩ : ExperimentManager).current_run = none ∧
      end_run ⟨true, some 0, none⟩ ⟨[], 1⟩ = (⟨true, some 0, none⟩, (⟨[], 1⟩ : MlflowState)) :=
  ⟨rfl, (c8_end_run_idempotent ⟨true, some 0, none⟩ ⟨[], 1⟩).1 rfl⟩

/-! ### Claim C9: reset clears data, keeps lifecycle -/

/-- Claim C9: `reset_stats` zeroes every aggregate counter, empties the rolling
buffers and the per-model states, and leaves the monitoring lifecycle —
`is_monitoring`, the thread handle, the registered callbacks, the thresholds and
the loop interval — exactly as before. -/
theorem c9_reset_frame (m : ModelMonitor) (now : Nat) :
    (reset_stats m now).stats.total_requests = 0 ∧
    (reset_stats m now).stats.successful_requests = 0 ∧
    (reset_stats m now).stats.failed_requests = 0 ∧
    (reset_stats m now).stats.avg_response_time = 0 ∧
    (reset_stats m now).stats.current_memory_usage = 0 ∧
    (reset_stats m now).stats.last_error = none ∧
    (reset_stats m now).response_times = [] ∧
    (reset_stats m now).error_counts = [] ∧
    (reset_stats m now).memory_usage = [] ∧
    (reset_stats m now).model_states = [] ∧
    (reset_stats m now).is_monitoring = m.is_monitoring ∧
    (reset_stats m now).monitor_thread = m.monitor_thread ∧
    (reset_stats m now).alert_callbacks = m.alert_callbacks ∧
    (reset_stats m now).thresholds = m.thresholds ∧
    (reset_stats m now).monitoring_interval = m.monitoring_interval := by
  exact ⟨rfl, rfl, rfl, rfl, rfl, rfl, rfl, rfl, rfl, rfl, rfl, rfl, rfl, rfl, rfl⟩

/-! ### Claim C10: response-time alerts require a successful request -/


lemma record_request_response_times (m : ModelMonitor) (success : Bool) (rt : ℚ)
    (mn : Option String) (now : Nat) :
    (record_request m success rt mn now).response_times =
      if success = true then dequeAppend 100 m.response_times rt
      else m.response_times := by
  cases mn <;> cases success <;> simp [record_request, update_model_state]

lemma succLatencies_cons (r : Request) (rest : List Request) :
    succLatencies (r :: rest) =
      (if r.success = true then [r.response_time] else []) ++ succLatencies rest := by
  cases hs : r.success <;> simp [succLatencies, List.filter_cons, hs]

lemma monitorBuffer_runRequests (rs : List Request) :
    ∀ (m : ModelMonitor) (zs : List ℚ), m.response_times = lastN 100 zs →
      (runRequests m rs).response_times = lastN 100 (zs ++ succLatencies rs) := by
  induction rs with
  | nil =>
      intro m zs h
      simpa [succLatencies] using h
  | cons r rest ih =>
      intro m zs h
      rw [runRequests_cons, succLatencies_cons, ← List.append_assoc]
      apply ih
      rw [record_request_response_times]
      cases hs : r.success with
      | true =>
          rw [if_pos rfl, if_pos rfl, h]
          exact dequeAppend_lastN 100 (by omega) zs r.response_time
      | false =>
          rw [if_neg (fun hc => Bool.false_ne_true hc), if_neg (fun hc => Bool.false_ne_true hc),
            List.append_nil]
          exact h

/-- Claim C10: a failed request never touches the monitor-wide latency buffer
(the buffer always holds exactly the last at most 100 successful latencies), and
with an empty buffer `_check_alerts` cannot emit a `response_time_high` alert —
so that alert presupposes at least one successful request. -/
theorem c10_response_alert_needs_success (m : ModelMonitor) (rt : ℚ)
    (mn : Option String) (rnow : Nat) (rs : List Request) (t0 : Nat)
    (sm : SystemMetrics) :
    (record_request m false rt mn rnow).response_times = m.response_times ∧
    (runRequests (initMonitor t0) rs).response_times = lastN 100 (succLatencies rs) ∧
    (m.response_times = [] →
      (check_alerts m sm).filter (fun a => a.type == "response_time_high") = []) := by
  refine ⟨?_, ?_, ?_⟩
  · rw [record_request_response_times, if_neg (fun hc => Bool.false_ne_true hc)]
  · have hh := monitorBuffer_runRequests rs (initMonitor t0) []
      (by simp [initMonitor, lastN])
    simpa using hh
  · intro he
    rw [check_alerts, List.filter_append, List.filter_append]
    have h1 : (memoryAlerts m sm).filter (fun a => a.type == "response_time_high") = [] := by
      rw [memoryAlerts]
      split <;> simp
    have h2 : (responseTimeAlerts m).filter (fun a => a.type == "response_time_high") = [] := by
      rw [responseTimeAlerts, if_neg]
      · rfl
      · rintro ⟨hne, -⟩
        rw [he] at hne
        simp at hne
    have h3 : (errorRateAlerts m).filter (fun a => a.type == "response_time_high") = [] := by
      rw [errorRateAlerts]
      split <;> simp
    rw [h1, h2, h3]
    rfl

/-- Witness for C10 at the fresh monitor: empty buffer, no response-time alert. -/
theorem c10_response_alert_needs_success_witness :
    (initMonitor 0).response_times = [] ∧
      (check_alerts (initMonitor 0) smW).filter
        (fun a => a.type == "response_time_high") = [] :=
  ⟨rfl, (c10_response_alert_needs_success (initMonitor 0) 1 none 0 [] 0 smW).2.2 rfl⟩

/-! ### Claim C1: starting a second run while one is open -/



/-- Claim C1, evaluated at the failing input: after a first `start_run` opens run
1, a second `start_run` before `end_run` does not nest a second run — the
tracking library's already-active exception is caught — but it merely returns
`none`, the very value an unavailable tracker also returns, instead of failing
with a distinguishable `RunAlreadyActive` error; the first run stays current. -/
theorem c1_second_start_run_indistinguishable :
    (start_run em1 ml1).2.2 = some 1 ∧
    (start_run em1 ml1).1.current_run = some 1 ∧
    (start_run (start_run em1 ml1).1 (start_run em1 ml1).2.1).2.2 = none ∧
    (start_run (start_run em1 ml1).1 (start_run em1 ml1).2.1).1.current_run = some 1 ∧
    (start_run (start_run em1 ml1).1 (start_run em1 ml1).2.1).2.1.active_runs = [1] ∧
    (start_run { mlflow_available := false, experiment_id := none, current_run := none } ml1).2.2 = none := by
  exact ⟨rfl, rfl, rfl, rfl, rfl, rfl⟩

end PdfMonitoring
